import Mathlib

/-!
Shallow embedding of the LLM analysis pipeline of the `code-lens`
repository, centred on the commit-analysis route
(`src/app/api/repos/[owner]/[repo]/commits/[sha]/analysis/route.ts`)
and the earlier pipeline iteration in `src/unnamed/part_003`
(`validateAndCleanCodeChanges` / `validateLineNumbers`) plus the model
gateway in `src/unnamed/part_009` (`createCompletion`).

Conventions of the embedding:
* JavaScript numbers are modelled by `Nat` / `Int` / `Rat`.  A JavaScript
  `NaN` arising from `0 / 0` is modelled by `Option.none`: every arithmetic
  expression that can be `NaN` in the source gets type `Option Rat`, and
  `none` propagates exactly as `NaN` does (any `<` or `>` comparison
  against `none` is false, mirroring `NaN` comparisons).
* A JavaScript value that may be `undefined`, `null` or absent is modelled
  by `Option`.  Truthiness tests on strings (`s || d`) are modelled by
  `jsOrStr`, which treats both absence and the empty string as falsy;
  arrays are truthy even when empty, so `arr || d` only falls back on
  absence.
* String primitives (`split`, `startsWith`, `trim`, `includes`) are
  re-implemented over `List Char` with the semantics of the JavaScript
  methods, so that every definition evaluates by kernel reduction.
* All asynchronous I/O of the route (database reads, the model call,
  `JSON.parse`) is supplied through an explicit environment, and the
  pipeline result is paired with the list of side-effecting events it
  performed, so that claims about which collaborators were consulted
  become statements about that event list.
-/

/-! ## JavaScript string and number primitives -/

/-- JavaScript `startsWith`: prefix test on the character lists. -/
def strStartsWith (s pre : String) : Bool :=
  pre.data.isPrefixOf s.data

/-- Worker for `jsSplit`.  The fuel argument is the length of the scanned
list, so the fuel is never exhausted; it only makes the recursion
structural.  At each position, if the (non-empty) separator occurs, the
accumulated token is emitted and scanning resumes after the separator. -/
def jsSplitAux (sep : List Char) : Nat → List Char → List Char → List (List Char)
  | _, [], acc => [acc.reverse]
  | 0, cs, acc => [acc.reverse ++ cs]
  | fuel + 1, c :: rest, acc =>
    if sep ≠ [] ∧ sep.isPrefixOf (c :: rest) then
      acc.reverse :: jsSplitAux sep fuel ((c :: rest).drop sep.length) []
    else
      jsSplitAux sep fuel rest (c :: acc)

/-- JavaScript `s.split(sep)` for a non-empty string separator: splits on
every non-overlapping occurrence, scanning left to right; a string with
no occurrence yields the one-element list `[s]`. -/
def jsSplit (s sep : String) : List String :=
  (jsSplitAux sep.data s.data.length s.data []).map String.mk

/-- JavaScript `String.prototype.includes` for a non-empty needle:
`s.includes(sub)` holds iff `sub` occurs in `s`; the split on `sub` has
more than one part exactly in that case. -/
def strIncludes (s sub : String) : Bool :=
  (jsSplit s sub).length != 1

/-- JavaScript regex `\s` and the whitespace removed by `trim`
(ASCII range; the rare Unicode space forms do not occur in diffs). -/
def isJsSpace (c : Char) : Bool :=
  c = ' ' || c = '\t' || c = '\n' || c = '\r' || c = '\x0b' || c = '\x0c'

/-- JavaScript `s.trim()`: strip whitespace from both ends. -/
def jsTrim (s : String) : String :=
  String.mk (((s.data.dropWhile isJsSpace).reverse.dropWhile isJsSpace).reverse)

/-- JavaScript `s.slice(n)` / the `replace(/^[+-]/, "")` use below:
drop the first `n` characters. -/
def strDrop (s : String) (n : Nat) : String :=
  String.mk (s.data.drop n)

/-- `Array.prototype.join(sep)` / `String.intercalate`. -/
def strJoin (sep : String) : List String → String
  | [] => ""
  | [s] => s
  | s :: rest => s ++ sep ++ strJoin sep rest

/-- JavaScript `x || d` for a possibly-absent string `x`: both `undefined`
and the empty string are falsy. -/
def jsOrStr (x : Option String) (d : String) : String :=
  match x with
  | some s => if s = "" then d else s
  | none => d

/-- Insertion into a JavaScript `Set` (kept as an insertion-ordered
duplicate-free list): adding an element that is already present leaves
the set unchanged. -/
def insertUnique {α : Type} [BEq α] (l : List α) (a : α) : List α :=
  if l.contains a then l else l ++ [a]

/-- Value of the leading run of ASCII digits of a character list, or
`none` when the list does not start with a digit.  Used to model
JavaScript `parseInt` (base 10). -/
def digitsPrefixVal : List Char → Option Nat → Option Nat
  | [], acc => acc
  | c :: rest, acc =>
    if c.isDigit then
      digitsPrefixVal rest (some ((acc.getD 0) * 10 + (c.toNat - '0'.toNat)))
    else acc

/-- JavaScript `parseInt(s)` (radix 10): skip leading whitespace, accept an
optional sign, read the longest digit prefix, ignore trailing garbage;
`none` models `NaN` (no digits found).  The `0x` hexadecimal form never
occurs in the line ranges handled here and is not modelled. -/
def jsParseInt (s : String) : Option Int :=
  match (jsTrim s).data with
  | '-' :: rest => (digitsPrefixVal rest none).map (fun n => -(n : Int))
  | '+' :: rest => (digitsPrefixVal rest none).map (fun n => (n : Int))
  | cs => (digitsPrefixVal cs none).map (fun n => (n : Int))

/-! ## Diff signatures (route.ts lines 177-220) -/

/-- Structural fingerprint of a diff (route.ts `interface DiffSignature`).
`files` stores `line.split(" b/")[1]` values; that index is `undefined`
in JavaScript when a `diff --git` line has no " b/" separator, so the
element type is `Option String` (a JavaScript `Set` can hold
`undefined`). -/
structure DiffSignature where
  files : List (Option String)
  changeTypes : List String
  changeCount : Nat
  mainChanges : List String
deriving DecidableEq, Repr

/-- JavaScript regex `\w`, that is `[A-Za-z0-9_]`. -/
def isWordChar (c : Char) : Bool :=
  c.isAlphanum || c = '_'

/-- After a run of whitespace has started, skip the rest of the run and
require a word character: models the `\s+\w` tail of the
`(function|class|interface|type|enum)\s+\w+` regex (route.ts line 208). -/
def wsThenWord : List Char → Bool
  | [] => false
  | c :: rest => if isJsSpace c then wsThenWord rest else isWordChar c

/-- Matches `\s+\w+` at the head of the character list (the trailing
`\w*` of `\w+` is irrelevant to matchability). -/
def wsWord : List Char → Bool
  | [] => false
  | c :: rest => isJsSpace c && wsThenWord rest

/-- Declaration keywords of the mainChanges regex (route.ts line 208). -/
def mainChangeKeywords : List String :=
  ["function", "class", "interface", "type", "enum"]

/-- Does any suffix of `cs` start with one of the declaration keywords
followed by `\s+\w+`?  Models the unanchored part of the regex
`^[+-].*?(function|class|interface|type|enum)\s+\w+`. -/
def suffixHasKeyword : List Char → Bool
  | [] => false
  | c :: rest =>
    (mainChangeKeywords.any fun kw =>
      kw.data.isPrefixOf (c :: rest) && wsWord ((c :: rest).drop kw.length))
    || suffixHasKeyword rest

/-- `line.match(/^[+-].*?(function|class|interface|type|enum)\s+\w+/)`
as a Boolean (route.ts line 208).  The line must start with `+` or `-`
and contain a keyword-declaration pattern somewhere after that prefix. -/
def isMainChangeLine (line : String) : Bool :=
  match line.data with
  | [] => false
  | c :: rest => (c = '+' || c = '-') && suffixHasKeyword rest

/-- One step of the `lines.forEach` loop of `generateDiffSignature`
(route.ts lines 193-212), folded over the signature accumulator. -/
def sigStep (acc : DiffSignature) (line : String) : DiffSignature :=
  if strStartsWith line "diff --git" then
    { acc with files := insertUnique acc.files ((jsSplit line " b/").get? 1) }
  else if strStartsWith line "+" || strStartsWith line "-" then
    let acc := { acc with changeCount := acc.changeCount + 1 }
    let acc := if strIncludes line "import " then
      { acc with changeTypes := insertUnique acc.changeTypes "import" } else acc
    let acc := if strIncludes line "function " then
      { acc with changeTypes := insertUnique acc.changeTypes "function" } else acc
    let acc := if strIncludes line "class " then
      { acc with changeTypes := insertUnique acc.changeTypes "class" } else acc
    let acc := if strIncludes line "interface " then
      { acc with changeTypes := insertUnique acc.changeTypes "interface" } else acc
    let acc := if strIncludes line "const " then
      { acc with changeTypes := insertUnique acc.changeTypes "const" } else acc
    if isMainChangeLine line then
      { acc with mainChanges := insertUnique acc.mainChanges (jsTrim (strDrop line 1)) }
    else acc
  else acc

/-- `generateDiffSignature` (route.ts lines 184-220): a single pass over
the lines of the diff, collecting touched files, coarse change-type
tokens, the count of `+`/`-` lines and normalized declaration lines. -/
def generateDiffSignature (diff : String) : DiffSignature :=
  (jsSplit diff "\n").foldl sigStep ⟨[], [], 0, []⟩

/-! ## Similarity scoring (route.ts lines 222-259) -/

/-- JavaScript division `num / den` of non-negative operands where
`num = 0` whenever `den = 0`: `0 / 0` is `NaN`, modelled as `none`. -/
def ratio (num den : Nat) : Option ℚ :=
  if den = 0 then none else some ((num : ℚ) / (den : ℚ))

/-- An intersection-over-max similarity component,
`intersection.length / max(l1.length, l2.length)`, as computed for
`files`, `changeTypes` and `mainChanges` in `calculateDiffSimilarity`
(route.ts lines 226-251).  The intersection is the source
`sig1.files.filter((f) => sig2.files.includes(f))`. -/
def simComponent {α : Type} [BEq α] (l1 l2 : List α) : Option ℚ :=
  ratio (l1.filter (fun a => l2.contains a)).length (max l1.length l2.length)

/-- The change-count component
`1 - abs(count1 - count2) / max(count1, count2)` (route.ts lines
240-243); `none` models the `NaN` produced when both counts are zero. -/
def countComponent (a b : Nat) : Option ℚ :=
  if max a b = 0 then none
  else some (1 - |(a : ℚ) - (b : ℚ)| / ((max a b : Nat) : ℚ))

/-- `calculateDiffSimilarity` (route.ts lines 222-259): the weighted sum
`0.3 * fileSim + 0.2 * typeSim + 0.2 * countSim + 0.3 * mainSim`.
In the source a zero denominator makes the corresponding component `NaN`
and `NaN` propagates through the sum, so the result is `none` whenever
any component is undefined. -/
def calculateDiffSimilarity (sig1 sig2 : DiffSignature) : Option ℚ :=
  match simComponent sig1.files sig2.files,
        simComponent sig1.changeTypes sig2.changeTypes,
        countComponent sig1.changeCount sig2.changeCount,
        simComponent sig1.mainChanges sig2.mainChanges with
  | some fileSimilarity, some typeSimilarity, some countSimilarity, some mainChangeSimilarity =>
    some (fileSimilarity * (3 / 10) + typeSimilarity * (1 / 5)
      + countSimilarity * (1 / 5) + mainChangeSimilarity * (3 / 10))
  | _, _, _, _ => none

/-! ## Analysis schema (route.ts lines 29-79) -/

/-- `CodeChangeSchema` (route.ts lines 30-37): a code-change unit of the
validated analysis.  The `type` field is constrained to the enum by the
validation functions below, not by the Lean type, mirroring that zod
checks it at parse time. -/
structure CodeChange where
  type : String
  file : String
  lines : String
  summary : String
  codeSnippet : Option (List String)
  explanation : String
deriving DecidableEq, Repr

/-- `ArchitectureDiagramSchema` (route.ts lines 39-42). -/
structure ArchitectureDiagram where
  diagram : String
  explanation : String
deriving DecidableEq, Repr

/-- `ReactConceptSchema` (route.ts lines 44-48). -/
structure ReactConcept where
  concept : String
  codeSnippet : List String
  explanation : String
deriving DecidableEq, Repr

/-- `AnalysisSchema` (route.ts lines 50-54). -/
structure Analysis where
  codeChanges : List CodeChange
  architectureDiagram : ArchitectureDiagram
  reactConcept : ReactConcept
deriving DecidableEq, Repr

/-- `DEFAULT_ANALYSIS` (route.ts lines 57-79): the deterministic fallback
returned on every failure mode. -/
def DEFAULT_ANALYSIS : Analysis :=
  { codeChanges := [
      { type := "Chore"
        file := "unknown"
        lines := "0-0"
        summary := "No changes detected"
        codeSnippet := none
        explanation := "No analysis available" }]
    architectureDiagram :=
      { diagram := "graph TD\n  A[No Analysis] --> B[Try Again]\n  B --> A"
        explanation := "No architecture diagram available" }
    reactConcept :=
      { concept := "None"
        codeSnippet := [
          "0: // No code snippet available",
          "1: // Please try regenerating the analysis"]
        explanation := "No React concept analysis available" } }

/-- `validateChangeType` (route.ts lines 932-942), which is also the zod
enum of `CodeChangeSchema` (route.ts line 31). -/
def validateChangeType (type : String) : Bool :=
  ["Feature", "Refactor", "Logic", "Chore", "Cleanup", "Config"].contains type

/-- The constraints `AnalysisSchema.parse` imposes beyond the field
structure: every change type is in the enum and the diagram text starts
with the `graph TD` marker.  An `Analysis` value returned by the
pipeline is schema-complete iff this predicate holds (all fields are
present by typing). -/
def validAnalysis (a : Analysis) : Bool :=
  a.codeChanges.all (fun c => validateChangeType c.type)
    && strStartsWith a.architectureDiagram.diagram "graph TD"

/-! ## The untyped parsed model response and zod validation -/

/-- A parsed `codeChanges` element as JavaScript sees it before
validation: every field may be absent.  A field that is present but of
the wrong primitive type behaves like an absent one for every use in the
source (zod rejects both; the repair replaces both), so the embedding
conflates the two. -/
structure RawCodeChange where
  type : Option String
  file : Option String
  lines : Option String
  summary : Option String
  codeSnippet : Option (List String)
  explanation : Option String
deriving DecidableEq, Repr

/-- A parsed `architectureDiagram` object before validation. -/
structure RawDiagram where
  diagram : Option String
  explanation : Option String
deriving DecidableEq, Repr

/-- A parsed `reactConcept` object before validation. -/
structure RawConcept where
  concept : Option String
  codeSnippet : Option (List String)
  explanation : Option String
deriving DecidableEq, Repr

/-- The result of `JSON.parse` on the extracted model output: an untyped
object whose members may each be missing. -/
structure ParsedResponse where
  codeChanges : Option (List RawCodeChange)
  architectureDiagram : Option RawDiagram
  reactConcept : Option RawConcept
deriving DecidableEq, Repr

/-- `CodeChangeSchema.parse`: all required fields present and the type in
the enum; `codeSnippet` is optional and passes through. -/
def zodCodeChange (r : RawCodeChange) : Option CodeChange :=
  match r.type, r.file, r.lines, r.summary, r.explanation with
  | some t, some f, some l, some s, some e =>
    if validateChangeType t then some ⟨t, f, l, s, r.codeSnippet, e⟩ else none
  | _, _, _, _, _ => none

/-- `z.array(CodeChangeSchema).parse`: every element must validate. -/
def zodCodeChanges : List RawCodeChange → Option (List CodeChange)
  | [] => some []
  | r :: rs =>
    match zodCodeChange r, zodCodeChanges rs with
    | some c, some cs => some (c :: cs)
    | _, _ => none

/-- `ArchitectureDiagramSchema.parse`: both fields present and
`diagram` starting with `graph TD`. -/
def zodDiagram (r : RawDiagram) : Option ArchitectureDiagram :=
  match r.diagram, r.explanation with
  | some d, some e => if strStartsWith d "graph TD" then some ⟨d, e⟩ else none
  | _, _ => none

/-- `ReactConceptSchema.parse`: all three fields present. -/
def zodConcept (r : RawConcept) : Option ReactConcept :=
  match r.concept, r.codeSnippet, r.explanation with
  | some c, some s, some e => some ⟨c, s, e⟩
  | _, _, _ => none

/-- `AnalysisSchema.parse` (route.ts line 855 and line 906): succeeds iff
all three members validate; `none` models the thrown `ZodError`. -/
def zodParseAnalysis (p : ParsedResponse) : Option Analysis :=
  match p.codeChanges, p.architectureDiagram, p.reactConcept with
  | some cs, some d, some rc =>
    match zodCodeChanges cs, zodDiagram d, zodConcept rc with
    | some cs2, some d2, some rc2 => some ⟨cs2, d2, rc2⟩
    | _, _, _ => none
  | _, _, _ => none

/-! ## JSON extraction from the model text (route.ts lines 820-837) -/

/-- The regex `({[\s\S]*})` (route.ts line 823): its first, greedy match
is the span from the first opening brace to the last closing brace of
the text, provided that closing brace comes after the opening one;
otherwise there is no match. -/
def matchBraceSpan (s : String) : Option String :=
  let cs := s.data
  match cs.findIdx? (fun c => c = '\x7b'), cs.reverse.findIdx? (fun c => c = '\x7d') with
  | some i, some jr =>
    let j := cs.length - 1 - jr
    if i < j then some (String.mk ((cs.drop i).take (j - i + 1))) else none
  | _, _ => none

/-- The cascading extraction of route.ts lines 822-830: prefer the brace
span match, else the interior of a ` ```json ` fence, else the interior
of a plain ` ``` ` fence, else the raw text. -/
def extractJsonStr (text : String) : String :=
  match matchBraceSpan text with
  | some s => s
  | none =>
    if strIncludes text "```json" then
      jsTrim (((jsSplit ((jsSplit text "```json").getD 1 "") "```").getD 0 ""))
    else if strIncludes text "```" then
      jsTrim (((jsSplit ((jsSplit text "```").getD 1 "") "```").getD 0 ""))
    else text

/-- `jsonStr.replace(/^[^{]*({[\s\S]*})[^}]*$/, "$1")` (route.ts line
837).  The whole-string pattern matches exactly when the text has an
opening brace followed later by a closing brace, and the capture group
is then the span from the first opening brace to the last closing brace,
so the replacement is that span; with no such pair the string is
unchanged. -/
def stripProse (s : String) : String :=
  (matchBraceSpan s).getD s

/-! ## The repair path (route.ts lines 872-903) -/

/-- The per-change repair inside `fixedResponse` (route.ts lines
874-880): invalid or missing type coerced to `Chore`, missing strings
replaced by placeholders, and no `codeSnippet` in the rebuilt object. -/
def fixCodeChange (change : RawCodeChange) : RawCodeChange :=
  { type := some (match change.type with
      | some t => if validateChangeType t then t else "Chore"
      | none => "Chore")
    file := some (jsOrStr change.file "unknown")
    lines := some (jsOrStr change.lines "N/A")
    summary := some (jsOrStr change.summary "No summary provided")
    codeSnippet := none
    explanation := some (jsOrStr change.explanation "No explanation provided") }

/-- A `CodeChange` of the typed default analysis viewed as a parsed
object, used when the model response had no `codeChanges` array. -/
def toRawCodeChange (c : CodeChange) : RawCodeChange :=
  ⟨some c.type, some c.file, some c.lines, some c.summary, c.codeSnippet, some c.explanation⟩

/-- `fixedResponse` (route.ts lines 872-903): the field-level repair
applied after a zod failure, before re-validation. -/
def fixResponse (p : ParsedResponse) : ParsedResponse :=
  { codeChanges := some (match p.codeChanges with
      | some changes => changes.map fixCodeChange
      | none => DEFAULT_ANALYSIS.codeChanges.map toRawCodeChange)
    architectureDiagram := some
      { diagram := some (match p.architectureDiagram with
          | some d =>
            match d.diagram with
            | some s =>
              if strStartsWith s "graph TD" then s
              else DEFAULT_ANALYSIS.architectureDiagram.diagram
            | none => DEFAULT_ANALYSIS.architectureDiagram.diagram
          | none => DEFAULT_ANALYSIS.architectureDiagram.diagram)
        explanation := some (jsOrStr (p.architectureDiagram.bind RawDiagram.explanation)
          DEFAULT_ANALYSIS.architectureDiagram.explanation) }
    reactConcept := some
      { concept := some (jsOrStr (p.reactConcept.bind RawConcept.concept)
          DEFAULT_ANALYSIS.reactConcept.concept)
        codeSnippet := some (match p.reactConcept.bind RawConcept.codeSnippet with
          | some l => l
          | none => DEFAULT_ANALYSIS.reactConcept.codeSnippet)
        explanation := some (jsOrStr (p.reactConcept.bind RawConcept.explanation)
          DEFAULT_ANALYSIS.reactConcept.explanation) } }

/-! ## Diff filtering (route.ts lines 728-744) -/

/-- The line predicate of the `filteredDiff` computation (route.ts lines
730-743): drop lockfile, dist/build, test-file, pure-whitespace and
comment-only lines. -/
def keepDiffLine (line : String) : Bool :=
  if strIncludes line "package-lock.json" then false
  else if strIncludes line "/dist/" || strIncludes line "/build/" then false
  else if strIncludes line ".test." || strIncludes line ".spec." then false
  else if jsTrim line = "+" || jsTrim line = "-" then false
  else if strStartsWith (jsTrim line) "+ //" || strStartsWith (jsTrim line) "- //" then false
  else true

/-- `filteredDiff` (route.ts lines 728-744): split into lines, filter,
rejoin. -/
def filterDiff (diff : String) : String :=
  strJoin "\n" ((jsSplit diff "\n").filter keepDiffLine)

/-! ## The analysis cache (route.ts lines 261-323) -/

/-- A row of the `analysisCache` table: keyed by the content hash of the
filtered diff, storing that diff, the analysis and a creation
timestamp. -/
structure CacheEntry where
  diffHash : String
  diff : String
  analysis : Analysis
  createdAt : Nat
deriving DecidableEq, Repr

/-- The body of the candidate loop of `findSimilarAnalysis` (route.ts
lines 281-297): keep the best match seen so far, replacing it only by a
candidate whose similarity is defined, above the threshold and strictly
above the best similarity so far.  A `none` similarity (`NaN` in the
source) fails both comparisons and is skipped. -/
def bestMatchStep (signature : DiffSignature) (similarityThreshold : ℚ)
    (acc : Option CacheEntry × ℚ) (cache : CacheEntry) : Option CacheEntry × ℚ :=
  match calculateDiffSimilarity signature (generateDiffSignature cache.diff) with
  | none => acc
  | some similarity =>
    if similarityThreshold < similarity ∧ acc.2 < similarity
    then (some cache, similarity) else acc

/-- `findSimilarAnalysis` (route.ts lines 261-304).  `store` is the list
of cache rows in the order the database returns them for
`orderBy createdAt desc`, that is, most recent first; `take 100` models
the `take: 100` of the query.  The fold starts from no match and a
highest similarity of `0`. -/
def findSimilarAnalysis (store : List CacheEntry) (diff : String)
    (similarityThreshold : ℚ := 8 / 10) : Option CacheEntry :=
  let signature := generateDiffSignature diff
  let recentCaches := store.take 100
  (recentCaches.foldl (bestMatchStep signature similarityThreshold) (none, 0)).1

/-! ## The model gateway (src/unnamed/part_009 lines 160-203) -/

/-- One content block of an Anthropic message response. -/
structure ModelContent where
  type : String
  text : String
deriving DecidableEq, Repr

/-- The usage statistics of a message response. -/
structure ModelUsage where
  input_tokens : Nat
  output_tokens : Nat
deriving DecidableEq, Repr

/-- The shape of a message response as used by the pipeline. -/
structure ModelResponse where
  content : List ModelContent
  usage : ModelUsage
deriving DecidableEq, Repr

/-- The fallback object built in the `catch` of `createCompletion`
(src/unnamed/part_009 lines 190-202): one text block with empty text and
zero usage. -/
def emptyCompletion : ModelResponse :=
  { content := [{ type := "text", text := "" }]
    usage := { input_tokens := 0, output_tokens := 0 } }

/-- `createCompletion` (src/unnamed/part_009 lines 160-203).  The
argument is the outcome of the upstream `claude.messages.create` call:
`Except.error` models a thrown transport/API error, which the source
catches, returning `emptyCompletion` instead of propagating. -/
def createCompletion (upstream : Except String ModelResponse) : ModelResponse :=
  match upstream with
  | .ok response => response
  | .error _ => emptyCompletion

/-! ## The generation pipeline (route.ts lines 712-929) -/

/-- The response-processing tail of `generateAnalysis` (route.ts lines
819-921): extract a JSON string, strip surrounding prose, parse
(`parse` is the `JSON.parse` oracle; `none` covers both a parse error
and a non-object result), validate, and on validation failure repair and
re-validate.  The Boolean records whether the successfully validated
analysis was written to the cache (`cacheAnalysis` runs only on the
first-validation success path, route.ts line 860). -/
def processModelText (parse : String → Option ParsedResponse) (text : String) :
    Analysis × Bool :=
  if extractJsonStr text = "" then (DEFAULT_ANALYSIS, false)
  else
    match parse (stripProse (extractJsonStr text)) with
    | none => (DEFAULT_ANALYSIS, false)
    | some parsedResponse =>
      match zodParseAnalysis parsedResponse with
      | some validatedAnalysis => (validatedAnalysis, true)
      | none =>
        match zodParseAnalysis (fixResponse parsedResponse) with
        | some validatedFixedAnalysis => (validatedFixedAnalysis, false)
        | none => (DEFAULT_ANALYSIS, false)

/-- The side effects of one pipeline run that the claims talk about. -/
inductive PipelineEvent where
  | cacheExactLookup
  | cacheSimilarLookup
  | modelCall
  | cachePut
deriving DecidableEq, Repr

/-- The environment of one `generateAnalysis` run: every external
collaborator the function awaits, supplied as data.
`exactCache` is the row returned by the `analysisCache.findUnique`
point lookup for the hash of the filtered diff (`none` covers both a
miss and a caught database error); `cacheStore` is the recency-ordered
table scanned by `findSimilarAnalysis`; `modelResponse` is the value
`createCompletion` resolves to (never null, see `createCompletion`);
`parseJson` is the `JSON.parse` oracle. -/
structure PipelineEnv where
  hasApiKey : Bool
  exactCache : Option CacheEntry
  cacheStore : List CacheEntry
  modelResponse : ModelResponse
  parseJson : String → Option ParsedResponse

/-- `generateAnalysis` (route.ts lines 712-929), paired with the list of
side-effecting steps it performed.  Every failure path returns
`DEFAULT_ANALYSIS`; no path throws (the source wraps the whole body in
`try`/`catch` blocks that all return the default). -/
def generateAnalysis (env : PipelineEnv) (diff : String) :
    Analysis × List PipelineEvent :=
  if env.hasApiKey = false then (DEFAULT_ANALYSIS, [])
  else if diff = "" then (DEFAULT_ANALYSIS, [])
  else if filterDiff diff = "" then (DEFAULT_ANALYSIS, [])
  else
    match env.exactCache with
    | some exactMatch => (exactMatch.analysis, [.cacheExactLookup])
    | none =>
      match findSimilarAnalysis env.cacheStore (filterDiff diff) with
      | some similarMatch =>
        (similarMatch.analysis, [.cacheExactLookup, .cacheSimilarLookup])
      | none =>
        match env.modelResponse.content with
        | [] => (DEFAULT_ANALYSIS, [.cacheExactLookup, .cacheSimilarLookup, .modelCall])
        | firstContent :: _ =>
          if firstContent.type ≠ "text" then
            (DEFAULT_ANALYSIS, [.cacheExactLookup, .cacheSimilarLookup, .modelCall])
          else
            ((processModelText env.parseJson firstContent.text).1,
              [.cacheExactLookup, .cacheSimilarLookup, .modelCall]
                ++ if (processModelText env.parseJson firstContent.text).2
                   then [.cachePut] else [])

/-! ## The route handler slice around generation (route.ts lines 366-710) -/

/-- The fields of a persisted `commitAnalysis` row the handler reads.
`codeChanges` is a JSON column: `none` models a missing or non-array
value (the handler guards with `Array.isArray`). -/
structure PersistedRecord where
  codeChanges : Option (List CodeChange)
  architectureDiagram : Option ArchitectureDiagram
  reactConcept : Option ReactConcept
deriving DecidableEq, Repr

/-- How the handler produced its response body. -/
inductive GetOutcome where
  | persistedReturn (analysis : Analysis)
  | generated (analysis : Analysis) (events : List PipelineEvent)
deriving DecidableEq, Repr

/-- The guard of route.ts lines 455-460:
`Array.isArray(existingAnalysis.codeChanges) && existingAnalysis.codeChanges.length > 0`. -/
def hasValidCodeChanges (p : PersistedRecord) : Bool :=
  match p.codeChanges with
  | some l => decide (l ≠ [])
  | none => false

/-- The decision slice of the `GET` handler (route.ts lines 454-537):
with an existing analysis that has a non-empty `codeChanges` array and
no `force` flag, the persisted record is returned (with defaults
substituted for absent members, route.ts lines 471-478); in every other
case the handler proceeds to `generateAnalysis`. -/
def getAnalysisRoute (forceRegenerate : Bool) (existingAnalysis : Option PersistedRecord)
    (env : PipelineEnv) (diff : String) : GetOutcome :=
  match existingAnalysis with
  | some p =>
    if forceRegenerate = false ∧ hasValidCodeChanges p then
      .persistedReturn
        { codeChanges := p.codeChanges.getD []
          architectureDiagram :=
            p.architectureDiagram.getD DEFAULT_ANALYSIS.architectureDiagram
          reactConcept := p.reactConcept.getD DEFAULT_ANALYSIS.reactConcept }
    else
      .generated (generateAnalysis env diff).1 (generateAnalysis env diff).2
  | none =>
    .generated (generateAnalysis env diff).1 (generateAnalysis env diff).2

/-! ## The earlier pipeline iteration (src/unnamed/part_003 lines 822-916) -/

namespace V3

/-- `validateChangeType` of the part_003 iteration (lines 822-833): the
enum of that schema version. -/
def validateChangeType (type : String) : Bool :=
  ["New Feature", "Refactor", "Improvement", "Chore", "Cleanup", "Config"].contains type

/-- The types for which a code snippet is kept
(part_003 lines 857-861). -/
def significantTypes : List String :=
  ["New Feature", "Refactor", "Improvement"]

/-- `validateLineNumbers` (part_003 lines 899-916): an empty range or
empty snippet fails; both bounds must parse as integers; every snippet
entry at index `i` must start with the prefix `start + i` followed by
a colon and a space, with `start + i` not exceeding `end`.  The range
argument is the raw `change.lines` with `undefined` collapsed to the
empty string (both are falsy in the source guard). -/
def validateLineNumbers (codeSnippet : List String) (lineRange : String) : Bool :=
  if lineRange = "" ∨ codeSnippet = [] then false
  else
    let parts := jsSplit lineRange "-"
    match jsParseInt (parts.getD 0 ""), (parts.get? 1).bind jsParseInt with
    | some start, some stop =>
      codeSnippet.enum.all fun p =>
        strStartsWith p.2 (toString (start + (p.1 : Int)) ++ ": ")
          && decide (start + (p.1 : Int) ≤ stop)
    | _, _ => false

/-- The start line used by the snippet repair (part_003 lines 879-880):
`parseInt(startStr) || 1`, where `startStr` is the part before the first
dash of `change.lines || ""`.  JavaScript `||` treats both `NaN` and `0`
as falsy, so an unparsable and a zero lower bound both yield `1`. -/
def repairStart (lines : String) : Int :=
  match jsParseInt ((jsSplit lines "-").getD 0 "") with
  | some n => if n = 0 then 1 else n
  | none => 1

/-- The content a repaired snippet entry keeps (part_003 lines 885-887):
the text after the first `": "` separator when one occurs — JavaScript
`line.split(": ")[1]` keeps only the segment between the first and
second separators — else the whole line. -/
def snippetContent (line : String) : String :=
  if strIncludes line ": " then (jsSplit line ": ").getD 1 "" else line

/-- The renumbering of a snippet (part_003 lines 884-889): entry `i`
becomes `start + i` followed by the kept content. -/
def renumberSnippet (codeSnippet : List String) (start : Int) : List String :=
  codeSnippet.enum.map fun p => toString (start + (p.1 : Int)) ++ ": " ++ snippetContent p.2

/-- A cleaned change as built by `validateAndCleanCodeChanges`
(part_003 lines 863-894).  Note the source object literal has no
`summary` member. -/
structure CleanedChange where
  type : String
  file : String
  lines : String
  explanation : String
  codeSnippet : Option (List String)
deriving DecidableEq, Repr

/-- The per-change body of `validateAndCleanCodeChanges` (part_003 lines
855-895): coerce the type, substitute placeholders for falsy fields,
and for a significant type with an array snippet either keep the snippet
when the line numbers validate, or renumber it from `repairStart` and
rewrite the range to span the snippet. -/
def cleanCodeChange (change : RawCodeChange) : CleanedChange :=
  let type := match change.type with
    | some t => if validateChangeType t then t else "Chore"
    | none => "Chore"
  let shouldHaveSnippet := significantTypes.contains type
  let file := jsOrStr change.file "unknown"
  let lines := jsOrStr change.lines "N/A"
  let explanation := jsOrStr change.explanation "No explanation provided"
  match change.codeSnippet with
  | some codeSnippet =>
    if shouldHaveSnippet then
      if validateLineNumbers codeSnippet ((change.lines).getD "") then
        ⟨type, file, lines, explanation, some codeSnippet⟩
      else
        let start := repairStart ((change.lines).getD "")
        ⟨type, file,
          toString start ++ "-" ++ toString (start + (codeSnippet.length : Int) - 1),
          explanation, some (renumberSnippet codeSnippet start)⟩
    else ⟨type, file, lines, explanation, none⟩
  | none => ⟨type, file, lines, explanation, none⟩

/-- `validateAndCleanCodeChanges` (part_003 lines 854-896). -/
def validateAndCleanCodeChanges (changes : List RawCodeChange) : List CleanedChange :=
  changes.map cleanCodeChange

end V3

/-! ## Specification of the fuzzy-cache scan -/

/-- The similarity the scan computes for a candidate row: the signature
of the request diff against the signature of the stored diff. -/
def simOf (signature : DiffSignature) (cache : CacheEntry) : Option ℚ :=
  calculateDiffSimilarity signature (generateDiffSignature cache.diff)

/-- Loop invariant of the candidate scan of `findSimilarAnalysis` over
the processed prefix of the candidate list: with no match so far the
best similarity is still `0` and no processed candidate exceeded the
threshold; with a match so far, the match is a processed candidate whose
similarity equals the best similarity, exceeds the threshold, and is an
upper bound for every processed candidate with a defined similarity. -/
def SimilarInv (signature : DiffSignature) (threshold : ℚ)
    (processed : List CacheEntry) (acc : Option CacheEntry × ℚ) : Prop :=
  (acc.1 = none → acc.2 = 0 ∧
    ∀ c ∈ processed, ∀ s, simOf signature c = some s → ¬ threshold < s)
  ∧ ∀ e, acc.1 = some e → e ∈ processed ∧ simOf signature e = some acc.2 ∧
      threshold < acc.2 ∧
      ∀ c ∈ processed, ∀ s, simOf signature c = some s → s ≤ acc.2

/-! ## Evaluation checks and supporting lemmas -/

example : jsSplit "a-b-c" "-" = ["a", "b", "c"] := by decide
example : jsSplit "ab" "x" = ["ab"] := by decide
example : jsSplit "```json x ``` y" "```json" = ["", " x ``` y"] := by decide
example : jsParseInt " 42abc" = some 42 := by decide
example : jsParseInt "0" = some 0 := by decide
example : jsParseInt "N/A" = none := by decide

example : generateDiffSignature "diff --git a/x.ts b/x.ts\n+function foo (a)\n-bar" =
    ⟨[some "x.ts"], ["function"], 2, ["function foo (a)"]⟩ := by decide

example : calculateDiffSimilarity ⟨[], [], 0, []⟩ ⟨[], [], 0, []⟩ = none := by decide

example : calculateDiffSimilarity ⟨[some "a"], ["import"], 2, ["m"]⟩
    ⟨[some "a"], ["import"], 2, ["m"]⟩ = some 1 := by
  norm_num [calculateDiffSimilarity, simComponent, countComponent, ratio]

example : matchBraceSpan "" = none := by decide
example : extractJsonStr "" = "" := by decide
example : stripProse "xx" = "xx" := by decide

example : filterDiff "+x package-lock.json\n+ //c" = "" := by decide
example : filterDiff "+keep" = "+keep" := by decide

example : V3.validateLineNumbers ["5: a", "6: b"] "5-6" = true := by decide
example : V3.validateLineNumbers ["5: a", "6: b"] "5-5" = false := by decide
example : V3.cleanCodeChange
    ⟨some "Refactor", some "f.ts", some "0-5", some "s", some ["7: x"], some "e"⟩ =
    ⟨"Refactor", "f.ts", "1-1", "e", some ["1: x"]⟩ := by decide

theorem insertUnique_nodup {α : Type} [BEq α] [LawfulBEq α] (l : List α) (a : α)
    (h : l.Nodup) : (insertUnique l a).Nodup := by
  unfold insertUnique
  split
  · exact h
  · next hc =>
    refine List.Nodup.append h (List.nodup_singleton a) ?_
    intro x hx hxa
    rw [List.mem_singleton] at hxa
    subst hxa
    exact hc (by simpa using hx)

theorem zodCodeChange_valid (r : RawCodeChange) (c : CodeChange)
    (h : zodCodeChange r = some c) : validateChangeType c.type = true := by
  unfold zodCodeChange at h
  split at h
  · split at h
    · next hv => cases h; exact hv
    · cases h
  · cases h

theorem zodCodeChanges_valid (rs : List RawCodeChange) (cs : List CodeChange)
    (h : zodCodeChanges rs = some cs) :
    cs.all (fun c => validateChangeType c.type) = true := by
  induction rs generalizing cs with
  | nil => unfold zodCodeChanges at h; simp_all
  | cons r rs ih =>
    unfold zodCodeChanges at h
    split at h
    · next c' cs' hc hcs =>
      cases h
      simp only [List.all_cons, Bool.and_eq_true]
      exact ⟨zodCodeChange_valid r c' hc, ih cs' hcs⟩
    · exact absurd h (by simp)

theorem zodParseAnalysis_valid (p : ParsedResponse) (a : Analysis)
    (h : zodParseAnalysis p = some a) : validAnalysis a = true := by
  unfold zodParseAnalysis at h
  split at h
  · next cs d rc hpc hpd hprc =>
    split at h
    · next cs2 d2 rc2 h1 h2 h3 =>
      cases h
      unfold validAnalysis
      simp only [Bool.and_eq_true]
      refine ⟨zodCodeChanges_valid cs cs2 h1, ?_⟩
      unfold zodDiagram at h2
      split at h2
      · split at h2
        · cases h2; assumption
        · cases h2
      · cases h2
    · cases h
  · cases h

theorem similarInv_step (signature : DiffSignature) (threshold : ℚ)
    (hth : 0 ≤ threshold) (processed : List CacheEntry) (acc : Option CacheEntry × ℚ)
    (c : CacheEntry) (h : SimilarInv signature threshold processed acc) :
    SimilarInv signature threshold (processed ++ [c])
      (bestMatchStep signature threshold acc c) := by
  obtain ⟨hnone, hsome⟩ := h
  cases hsim : calculateDiffSimilarity signature (generateDiffSignature c.diff) with
  | none =>
    have hred : bestMatchStep signature threshold acc c = acc := by
      unfold bestMatchStep; rw [hsim]
    rw [hred]
    refine ⟨fun h1 => ?_, fun e he => ?_⟩
    · obtain ⟨h2, h3⟩ := hnone h1
      refine ⟨h2, fun c2 hc2 s hs => ?_⟩
      rcases List.mem_append.mp hc2 with hmem | hmem
      · exact h3 c2 hmem s hs
      · rw [List.mem_singleton] at hmem; subst hmem
        rw [show simOf signature c2 = none from hsim] at hs; cases hs
    · obtain ⟨hm, hs, hts, hmax⟩ := hsome e he
      refine ⟨List.mem_append_left _ hm, hs, hts, fun c2 hc2 s2 hs2 => ?_⟩
      rcases List.mem_append.mp hc2 with hmem | hmem
      · exact hmax c2 hmem s2 hs2
      · rw [List.mem_singleton] at hmem; subst hmem
        rw [show simOf signature c2 = none from hsim] at hs2; cases hs2
  | some s =>
    have hred : bestMatchStep signature threshold acc c
        = if threshold < s ∧ acc.2 < s then (some c, s) else acc := by
      unfold bestMatchStep; rw [hsim]
    rw [hred]
    by_cases hcond : threshold < s ∧ acc.2 < s
    · rw [if_pos hcond]
      refine ⟨fun h1 => absurd h1 (by simp), fun e he => ?_⟩
      simp only [Option.some.injEq] at he
      subst he
      refine ⟨List.mem_append_right _ (List.mem_singleton_self c), hsim, hcond.1,
        fun c2 hc2 s2 hs2 => ?_⟩
      rcases List.mem_append.mp hc2 with hmem | hmem
      · cases hacc : acc.1 with
        | none =>
          obtain ⟨h2, h3⟩ := hnone hacc
          exact le_of_lt (lt_of_le_of_lt (not_lt.mp (h3 c2 hmem s2 hs2)) hcond.1)
        | some e2 =>
          obtain ⟨_, _, _, hmax⟩ := hsome e2 hacc
          exact le_of_lt (lt_of_le_of_lt (hmax c2 hmem s2 hs2) hcond.2)
      · rw [List.mem_singleton] at hmem; subst hmem
        rw [show simOf signature c2 = some s from hsim] at hs2
        injection hs2 with h5; subst h5; exact le_refl _
    · rw [if_neg hcond]
      push_neg at hcond
      refine ⟨fun h1 => ?_, fun e he => ?_⟩
      · obtain ⟨h2, h3⟩ := hnone h1
        refine ⟨h2, fun c2 hc2 s2 hs2 => ?_⟩
        rcases List.mem_append.mp hc2 with hmem | hmem
        · exact h3 c2 hmem s2 hs2
        · rw [List.mem_singleton] at hmem; subst hmem
          rw [show simOf signature c2 = some s from hsim] at hs2
          injection hs2 with h5; subst h5
          intro hlt
          have h6 := hcond hlt
          rw [h2] at h6
          exact absurd hlt (not_lt.mpr (le_trans h6 hth))
      · obtain ⟨hm, hs2, hts, hmax⟩ := hsome e he
        refine ⟨List.mem_append_left _ hm, hs2, hts, fun c2 hc2 s2 hs3 => ?_⟩
        rcases List.mem_append.mp hc2 with hmem | hmem
        · exact hmax c2 hmem s2 hs3
        · rw [List.mem_singleton] at hmem; subst hmem
          rw [show simOf signature c2 = some s from hsim] at hs3
          injection hs3 with h5; subst h5
          by_cases hlt : threshold < s
          · exact hcond hlt
          · exact le_of_lt (lt_of_le_of_lt (not_lt.mp hlt) hts)

theorem similarInv_foldl (signature : DiffSignature) (threshold : ℚ)
    (hth : 0 ≤ threshold) :
    ∀ (l processed : List CacheEntry) (acc : Option CacheEntry × ℚ),
      SimilarInv signature threshold processed acc →
      SimilarInv signature threshold (processed ++ l)
        (l.foldl (bestMatchStep signature threshold) acc)
  | [], processed, acc, h => by simpa using h
  | c :: l, processed, acc, h => by
    have h1 := similarInv_step signature threshold hth processed acc c h
    have h2 := similarInv_foldl signature threshold hth l (processed ++ [c]) _ h1
    rw [List.append_assoc] at h2
    simpa using h2

theorem findSimilarAnalysis_inv (store : List CacheEntry) (diff : String)
    (threshold : ℚ) (hth : 0 ≤ threshold) :
    SimilarInv (generateDiffSignature diff) threshold (store.take 100)
      ((store.take 100).foldl
        (bestMatchStep (generateDiffSignature diff) threshold) (none, 0)) := by
  have h0 : SimilarInv (generateDiffSignature diff) threshold [] (none, 0) := by
    refine ⟨fun _ => ⟨rfl, by simp⟩, fun e he => by cases he⟩
  have h1 := similarInv_foldl (generateDiffSignature diff) threshold hth
    (store.take 100) [] (none, 0) h0
  simpa using h1

theorem findSimilarAnalysis_some (store : List CacheEntry) (diff : String)
    (threshold : ℚ) (hth : 0 ≤ threshold) (e : CacheEntry)
    (h : findSimilarAnalysis store diff threshold = some e) :
    e ∈ store.take 100 ∧
      ∃ s, simOf (generateDiffSignature diff) e = some s ∧ threshold < s ∧
        ∀ c ∈ store.take 100, ∀ s2, simOf (generateDiffSignature diff) c = some s2 →
          s2 ≤ s := by
  have hinv := findSimilarAnalysis_inv store diff threshold hth
  unfold findSimilarAnalysis at h
  obtain ⟨hm, hs, hts, hmax⟩ := hinv.2 e h
  exact ⟨hm, ⟨_, hs, hts, hmax⟩⟩

theorem findSimilarAnalysis_none (store : List CacheEntry) (diff : String)
    (threshold : ℚ) (hth : 0 ≤ threshold)
    (h : findSimilarAnalysis store diff threshold = none) :
    ∀ c ∈ store.take 100, ∀ s, simOf (generateDiffSignature diff) c = some s →
      ¬ threshold < s := by
  have hinv := findSimilarAnalysis_inv store diff threshold hth
  unfold findSimilarAnalysis at h
  exact (hinv.1 h).2

theorem findSimilarAnalysis_mem (store : List CacheEntry) (diff : String)
    (threshold : ℚ) (hth : 0 ≤ threshold) (e : CacheEntry)
    (h : findSimilarAnalysis store diff threshold = some e) : e ∈ store :=
  List.take_subset 100 store (findSimilarAnalysis_some store diff threshold hth e h).1

theorem sigStep_nodup (acc : DiffSignature) (line : String)
    (h1 : acc.files.Nodup) (h2 : acc.changeTypes.Nodup) (h3 : acc.mainChanges.Nodup) :
    (sigStep acc line).files.Nodup ∧ (sigStep acc line).changeTypes.Nodup ∧
      (sigStep acc line).mainChanges.Nodup := by
  unfold sigStep
  split
  · exact ⟨insertUnique_nodup _ _ h1, h2, h3⟩
  · split
    · split <;> split <;> split <;> split <;> split <;> split <;>
        (refine ⟨?_, ?_, ?_⟩ <;> (repeat first | assumption | apply insertUnique_nodup))
    · exact ⟨h1, h2, h3⟩

/-- Every signature `generateDiffSignature` produces has duplicate-free
`files`, `changeTypes` and `mainChanges`: they are materialized from
JavaScript `Set`s.  This is the invariant behind the `Nodup` hypotheses
of the similarity symmetry theorem. -/
theorem generateDiffSignature_nodup (diff : String) :
    (generateDiffSignature diff).files.Nodup ∧
      (generateDiffSignature diff).changeTypes.Nodup ∧
      (generateDiffSignature diff).mainChanges.Nodup := by
  have key : ∀ (lines : List String) (acc : DiffSignature),
      acc.files.Nodup → acc.changeTypes.Nodup → acc.mainChanges.Nodup →
      (lines.foldl sigStep acc).files.Nodup ∧
        (lines.foldl sigStep acc).changeTypes.Nodup ∧
        (lines.foldl sigStep acc).mainChanges.Nodup := by
    intro lines
    induction lines with
    | nil => intro acc g1 g2 g3; exact ⟨g1, g2, g3⟩
    | cons l ls ih =>
      intro acc g1 g2 g3
      obtain ⟨k1, k2, k3⟩ := sigStep_nodup acc l g1 g2 g3
      simpa using ih (sigStep acc l) k1 k2 k3
  unfold generateDiffSignature
  exact key (jsSplit diff "\n") ⟨[], [], 0, []⟩ (by simp) (by simp) (by simp)


/-! ## Algebraic facts about the similarity score -/

theorem interLength_comm {α : Type} [BEq α] [LawfulBEq α] [DecidableEq α]
    (l1 l2 : List α) (h1 : l1.Nodup) (h2 : l2.Nodup) :
    (l1.filter (fun a => l2.contains a)).length
      = (l2.filter (fun a => l1.contains a)).length := by
  have key : ∀ (la lb : List α), la.Nodup →
      (la.filter (fun a => lb.contains a)).length
        = (la.toFinset ∩ lb.toFinset).card := by
    intro la lb ha
    rw [← List.toFinset_card_of_nodup (ha.filter _)]
    congr 1
    ext x
    simp [List.mem_filter, List.elem_iff, Finset.mem_inter]
  rw [key l1 l2 h1, key l2 l1 h2, Finset.inter_comm]

theorem simComponent_comm {α : Type} [BEq α] [LawfulBEq α] [DecidableEq α]
    (l1 l2 : List α) (h1 : l1.Nodup) (h2 : l2.Nodup) :
    simComponent l1 l2 = simComponent l2 l1 := by
  unfold simComponent
  rw [interLength_comm l1 l2 h1 h2, Nat.max_comm]

theorem countComponent_comm (a b : Nat) : countComponent a b = countComponent b a := by
  unfold countComponent
  rw [Nat.max_comm a b, abs_sub_comm ((a : ℚ)) ((b : ℚ))]

theorem list_filter_contains_self {α : Type} [BEq α] [LawfulBEq α] (l : List α) :
    l.filter (fun a => l.contains a) = l := by
  apply List.filter_eq_self.mpr
  intro a ha
  simpa [List.elem_iff] using ha

theorem simComponent_self {α : Type} [BEq α] [LawfulBEq α] (l : List α)
    (h : l ≠ []) : simComponent l l = some 1 := by
  have hlen : l.length ≠ 0 := by simpa [List.length_eq_zero] using h
  unfold simComponent ratio
  rw [list_filter_contains_self, Nat.max_self, if_neg hlen]
  rw [div_self (Nat.cast_ne_zero.mpr hlen)]

theorem countComponent_self (a : Nat) (h : a ≠ 0) : countComponent a a = some 1 := by
  unfold countComponent
  rw [Nat.max_self, if_neg h]
  simp

theorem simComponent_eq_none {α : Type} [BEq α] (l1 l2 : List α) :
    simComponent l1 l2 = none ↔ (l1 = [] ∧ l2 = []) := by
  unfold simComponent ratio
  split
  · next hd => simp_all [Nat.max_eq_zero_iff, List.length_eq_zero]
  · next hd => simp_all [Nat.max_eq_zero_iff, List.length_eq_zero]

theorem countComponent_eq_none (a b : Nat) :
    countComponent a b = none ↔ (a = 0 ∧ b = 0) := by
  unfold countComponent
  split
  · next hd => simp_all [Nat.max_eq_zero_iff]
  · next hd => simp_all [Nat.max_eq_zero_iff]

/-! ## Claims C5, C6, C7: properties of `calculateDiffSimilarity` -/

/-- C5, counterexample.  The claim says a zero-denominator component is
treated as `0` so the overall weighted similarity is always a
well-defined number.  In the source there is no division-by-zero guard:
with both `changeTypes` sets empty, `typeIntersection.size /
Math.max(0, 0)` is `0 / 0 = NaN` and the whole weighted sum is `NaN`
(modelled `none`), not a number. -/
theorem claim5_counterexample :
    calculateDiffSimilarity ⟨[some "a.ts"], [], 3, ["m"]⟩
      ⟨[some "a.ts"], [], 3, ["m"]⟩ = none := rfl

/-- C5, amended: the weighted similarity is undefined (`NaN`, modelled
`none`) exactly when some component has a zero denominator, that is,
when both `files` are empty, both `changeTypes` are empty, both
`changeCount`s are zero, or both `mainChanges` are empty; there is no
treatment of the component as `0`. -/
theorem claim5_amended_nan_iff_zero_denominator (A B : DiffSignature) :
    calculateDiffSimilarity A B = none ↔
      (A.files = [] ∧ B.files = []) ∨ (A.changeTypes = [] ∧ B.changeTypes = [])
        ∨ (A.changeCount = 0 ∧ B.changeCount = 0)
        ∨ (A.mainChanges = [] ∧ B.mainChanges = []) := by
  have hf := simComponent_eq_none A.files B.files
  have ht := simComponent_eq_none A.changeTypes B.changeTypes
  have hc := countComponent_eq_none A.changeCount B.changeCount
  have hm := simComponent_eq_none A.mainChanges B.mainChanges
  unfold calculateDiffSimilarity
  cases hF : simComponent A.files B.files <;>
    cases hT : simComponent A.changeTypes B.changeTypes <;>
      cases hC : countComponent A.changeCount B.changeCount <;>
        cases hM : simComponent A.mainChanges B.mainChanges <;>
          simp_all

/-- C6, counterexample.  The claim says self-similarity is exactly `1.0`
for every signature, including empty ones.  For the empty signature all
four components are `0 / 0 = NaN`, so the self-similarity is `NaN`
(modelled `none`), not `1.0`. -/
theorem claim6_counterexample :
    calculateDiffSimilarity ⟨[], [], 0, []⟩ ⟨[], [], 0, []⟩ ≠ some 1 := by
  rw [show calculateDiffSimilarity ⟨[], [], 0, []⟩ ⟨[], [], 0, []⟩ = none from rfl]
  intro h
  cases h

/-- C6, amended: the self-similarity of a signature is exactly `1`
provided every component is defined, that is, the signature has
non-empty `files`, `changeTypes` and `mainChanges` and a non-zero
`changeCount`; for the remaining signatures the result is `NaN`. -/
theorem claim6_amended_self_similarity_one (sig : DiffSignature)
    (hf : sig.files ≠ []) (ht : sig.changeTypes ≠ []) (hm : sig.mainChanges ≠ [])
    (hc : sig.changeCount ≠ 0) :
    calculateDiffSimilarity sig sig = some 1 := by
  unfold calculateDiffSimilarity
  rw [simComponent_self sig.files hf, simComponent_self sig.changeTypes ht,
    countComponent_self sig.changeCount hc, simComponent_self sig.mainChanges hm]
  norm_num

/-- Witness for the amended C6 at a concrete signature. -/
theorem claim6_witness :
    calculateDiffSimilarity ⟨[some "f.ts"], ["const"], 1, ["const x = 1"]⟩
      ⟨[some "f.ts"], ["const"], 1, ["const x = 1"]⟩ = some 1 :=
  claim6_amended_self_similarity_one _ (by decide) (by decide) (by decide) (by decide)

/-- C7: the similarity score is symmetric.  The `Nodup` hypotheses
express that the list fields of a `DiffSignature` are sets (they are
materialized from JavaScript `Set`s by `generateDiffSignature`); the
intersections are then the same size in both orders and the `max`
denominators coincide. -/
theorem claim7_similarity_symmetric (A B : DiffSignature)
    (hA1 : A.files.Nodup) (hA2 : A.changeTypes.Nodup) (hA3 : A.mainChanges.Nodup)
    (hB1 : B.files.Nodup) (hB2 : B.changeTypes.Nodup) (hB3 : B.mainChanges.Nodup) :
    calculateDiffSimilarity A B = calculateDiffSimilarity B A := by
  unfold calculateDiffSimilarity
  rw [simComponent_comm A.files B.files hA1 hB1,
    simComponent_comm A.changeTypes B.changeTypes hA2 hB2,
    countComponent_comm A.changeCount B.changeCount,
    simComponent_comm A.mainChanges B.mainChanges hA3 hB3]

/-- Witness for C7 at two concrete signatures. -/
theorem claim7_witness :
    calculateDiffSimilarity ⟨[some "a.ts"], ["import"], 2, ["function f (x)"]⟩
        ⟨[some "b.ts", some "a.ts"], ["const"], 3, []⟩
      = calculateDiffSimilarity ⟨[some "b.ts", some "a.ts"], ["const"], 3, []⟩
        ⟨[some "a.ts"], ["import"], 2, ["function f (x)"]⟩ :=
  claim7_similarity_symmetric _ _ (by decide) (by decide) (by decide)
    (by decide) (by decide) (by decide)

/-! ## Claims C1, C3: totality and short-circuit of the pipeline -/

theorem default_analysis_valid : validAnalysis DEFAULT_ANALYSIS = true := by decide

theorem processModelText_valid (parse : String → Option ParsedResponse) (text : String) :
    validAnalysis (processModelText parse text).1 = true := by
  unfold processModelText
  split
  · exact default_analysis_valid
  · split
    · exact default_analysis_valid
    · next parsed hp =>
      split
      · next a ha => exact zodParseAnalysis_valid _ a ha
      · split
        · next a2 ha2 => exact zodParseAnalysis_valid _ a2 ha2
        · exact default_analysis_valid

/-- C1: `generateAnalysis` never throws (it is a total function of its
environment in this embedding; every catch block of the source returns
the default) and always returns a schema-complete `Analysis`: all fields
populated (by typing), every change type in the enum, and the diagram
starting with `graph TD`.  The hypotheses say the cache rows hold
schema-complete analyses, which is how they are written
(`cacheAnalysis` only ever stores a zod-validated analysis). -/
theorem claim1_generateAnalysis_total_valid (env : PipelineEnv) (diff : String)
    (hex : ∀ e, env.exactCache = some e → validAnalysis e.analysis = true)
    (hstore : ∀ e ∈ env.cacheStore, validAnalysis e.analysis = true) :
    validAnalysis (generateAnalysis env diff).1 = true := by
  unfold generateAnalysis
  split
  · exact default_analysis_valid
  · split
    · exact default_analysis_valid
    · split
      · exact default_analysis_valid
      · split
        · next e he => exact hex e he
        · split
          · next e he =>
            exact hstore e (findSimilarAnalysis_mem env.cacheStore
              (filterDiff diff) (8 / 10) (by norm_num) e he)
          · split
            · exact default_analysis_valid
            · split
              · exact default_analysis_valid
              · exact processModelText_valid _ _

/-- Witness for C1 with empty caches and an error-shaped model
response. -/
theorem claim1_witness :
    validAnalysis (generateAnalysis
      ⟨true, none, [], emptyCompletion, fun _ => none⟩ "+x").1 = true :=
  claim1_generateAnalysis_total_valid _ _
    (fun _ he => Option.noConfusion he)
    (fun e he => absurd he (List.not_mem_nil e))

/-- C3: when the filtered diff is empty, `generateAnalysis` returns the
default analysis and performs no side-effecting step at all: no cache
lookup, no model call, no cache write (the empty-filter check at
route.ts line 746 runs before the cache section and the model call). -/
theorem claim3_empty_filtered_short_circuit (env : PipelineEnv) (diff : String)
    (h : filterDiff diff = "") :
    generateAnalysis env diff = (DEFAULT_ANALYSIS, []) := by
  unfold generateAnalysis
  simp [h]

/-- Witness for C3: a diff whose only line mentions `package-lock.json`
filters to the empty string. -/
theorem claim3_witness :
    filterDiff "+code package-lock.json" = "" ∧
      generateAnalysis ⟨true, none, [], emptyCompletion, fun _ => none⟩
        "+code package-lock.json" = (DEFAULT_ANALYSIS, []) :=
  ⟨by decide, claim3_empty_filtered_short_circuit _ _ (by decide)⟩

/-! ## Claim C4: specification of `findSimilarAnalysis` -/

/-- C4: `findSimilarAnalysis` scans exactly the first 100 entries of the
recency-ordered store; a returned entry is one of those candidates, its
similarity to the query diff is defined and strictly above the
threshold, and no candidate has a larger defined similarity; when no
candidate strictly exceeds the threshold the result is `null`.  The
hypothesis `0 ≤ threshold` restricts to meaningful similarity
thresholds (similarities lie in `[0, 1]` and the source default is
`0.8`); it is needed because the loop seeds its best-so-far similarity
with `0`. -/
theorem claim4_findSimilar_spec (store : List CacheEntry) (diff : String)
    (threshold : ℚ) (hth : 0 ≤ threshold) :
    (∀ e, findSimilarAnalysis store diff threshold = some e →
      e ∈ store.take 100 ∧
        ∃ s, simOf (generateDiffSignature diff) e = some s ∧ threshold < s ∧
          ∀ c ∈ store.take 100, ∀ s2,
            simOf (generateDiffSignature diff) c = some s2 → s2 ≤ s)
    ∧ (findSimilarAnalysis store diff threshold = none →
        ∀ c ∈ store.take 100, ∀ s,
          simOf (generateDiffSignature diff) c = some s → ¬ threshold < s) :=
  ⟨fun e he => findSimilarAnalysis_some store diff threshold hth e he,
   fun hn => findSimilarAnalysis_none store diff threshold hth hn⟩

/-- Witness for C4 at the empty store and threshold `0`. -/
theorem claim4_witness :
    (0 : ℚ) ≤ 0 ∧
      ((∀ e, findSimilarAnalysis [] "" 0 = some e →
        e ∈ ([] : List CacheEntry).take 100 ∧
          ∃ s, simOf (generateDiffSignature "") e = some s ∧ 0 < s ∧
            ∀ c ∈ ([] : List CacheEntry).take 100, ∀ s2,
              simOf (generateDiffSignature "") c = some s2 → s2 ≤ s)
      ∧ (findSimilarAnalysis [] "" 0 = none →
          ∀ c ∈ ([] : List CacheEntry).take 100, ∀ s,
            simOf (generateDiffSignature "") c = some s → ¬ (0 : ℚ) < s)) :=
  ⟨le_refl 0, claim4_findSimilar_spec [] "" 0 (le_refl 0)⟩

/-! ## Claim C9: the gateway error fallback and its pipeline effect -/

/-- C9: `createCompletion` never propagates an upstream error: any thrown
transport/API error is caught and mapped to a response whose content is
a single text block with empty text and whose usage is zero input and
zero output tokens; and a pipeline run that reaches the model call with
that empty-text response produces the default analysis (the empty text
yields an empty extracted JSON string, route.ts line 832). -/
theorem claim9_createCompletion_error_to_default :
    (∀ err : String, createCompletion (Except.error err) = emptyCompletion) ∧
    emptyCompletion.content = [{ type := "text", text := "" }] ∧
    emptyCompletion.usage = { input_tokens := 0, output_tokens := 0 } ∧
    ∀ (env : PipelineEnv) (diff : String),
      env.modelResponse = emptyCompletion →
      env.exactCache = none →
      findSimilarAnalysis env.cacheStore (filterDiff diff) = none →
      (generateAnalysis env diff).1 = DEFAULT_ANALYSIS := by
  refine ⟨fun _ => rfl, rfl, rfl, ?_⟩
  intro env diff hresp hex hsim
  unfold generateAnalysis
  split
  · rfl
  · split
    · rfl
    · split
      · rfl
      · rw [hex, hsim, hresp]; rfl

/-- Witness for C9: a run against empty caches with the error-shaped
response returns the default analysis. -/
theorem claim9_witness :
    (generateAnalysis ⟨true, none, [], emptyCompletion, fun _ => none⟩ "+x").1
      = DEFAULT_ANALYSIS :=
  claim9_createCompletion_error_to_default.2.2.2
    ⟨true, none, [], emptyCompletion, fun _ => none⟩ "+x" rfl rfl rfl

/-! ## Claims C2, C10: the force flag and the persisted-record guard -/

/-- C2, counterexample.  The claim says `force=true` bypasses both cache
checks so no cache entry is ever returned in place of a freshly
generated analysis.  In the source, `force` is only consulted by the
`GET` handler guard (route.ts line 456); `generateAnalysis` never sees
it and performs its exact-hash cache lookup unconditionally (route.ts
line 756).  Here, under `force=true` with a persisted record present,
the run returns the cached entry's analysis, and its event trace is the
exact-hash lookup alone — no model call happened. -/
theorem claim2_counterexample :
    getAnalysisRoute true
        (some ⟨some [⟨"Chore", "u", "0-0", "s", none, "e"⟩], none, none⟩)
        ⟨true,
          some ⟨"hash0", "+old",
            ⟨[⟨"Feature", "a.ts", "1-2", "adds a widget", none, "explains"⟩],
              ⟨"graph TD\n  A --> B", "arch"⟩, ⟨"Cached", [], "cached"⟩⟩, 7⟩,
          [], emptyCompletion, fun _ => none⟩ "+x"
      = .generated
          ⟨[⟨"Feature", "a.ts", "1-2", "adds a widget", none, "explains"⟩],
            ⟨"graph TD\n  A --> B", "arch"⟩, ⟨"Cached", [], "cached"⟩⟩
          [.cacheExactLookup]
    ∧ PipelineEvent.modelCall ∉ [PipelineEvent.cacheExactLookup] :=
  ⟨rfl, by decide⟩

/-- C2, amended: `force=true` bypasses only the persisted-record check —
the handler always proceeds to `generateAnalysis` — but the cache checks
are not bypassed: inside `generateAnalysis` an exact cache hit is still
returned in place of fresh generation (and likewise the similarity
lookup still runs). -/
theorem claim2_amended_force_bypasses_only_persisted :
    (∀ (persisted : Option PersistedRecord) (env : PipelineEnv) (diff : String),
      getAnalysisRoute true persisted env diff
        = .generated (generateAnalysis env diff).1 (generateAnalysis env diff).2)
    ∧ ∀ (env : PipelineEnv) (diff : String) (e : CacheEntry),
        env.hasApiKey = true → diff ≠ "" → filterDiff diff ≠ "" →
        env.exactCache = some e →
        generateAnalysis env diff = (e.analysis, [PipelineEvent.cacheExactLookup]) := by
  constructor
  · intro persisted env diff
    unfold getAnalysisRoute
    cases persisted with
    | none => rfl
    | some p => simp
  · intro env diff e h1 h2 h3 h4
    unfold generateAnalysis
    rw [h1, h4]
    simp [h2, h3]

/-- Witness for the amended C2: under `force=true` the handler generates
even with a persisted record present, and a run with an exact cache hit
returns the cached analysis with only the exact-lookup event. -/
theorem claim2_witness :
    getAnalysisRoute true (some ⟨some [⟨"Chore", "u", "0-0", "s", none, "e"⟩], none, none⟩)
        ⟨true, none, [], emptyCompletion, fun _ => none⟩ "+x"
      = .generated
          (generateAnalysis ⟨true, none, [], emptyCompletion, fun _ => none⟩ "+x").1
          (generateAnalysis ⟨true, none, [], emptyCompletion, fun _ => none⟩ "+x").2
    ∧ generateAnalysis
        ⟨true, some ⟨"h", "+d", DEFAULT_ANALYSIS, 1⟩, [], emptyCompletion, fun _ => none⟩
        "+x"
      = (DEFAULT_ANALYSIS, [PipelineEvent.cacheExactLookup]) :=
  ⟨claim2_amended_force_bypasses_only_persisted.1 _ _ "+x",
   claim2_amended_force_bypasses_only_persisted.2 _ "+x"
     ⟨"h", "+d", DEFAULT_ANALYSIS, 1⟩ rfl (by decide) (by decide) rfl⟩

/-- C10: a persisted analysis short-circuits the pipeline only when its
`codeChanges` is a non-empty array; with `force=false` and a persisted
record whose `codeChanges` is missing (or not an array) or empty, the
handler proceeds to generate a fresh analysis instead of returning the
record (route.ts lines 454-460). -/
theorem claim10_persisted_requires_nonempty_codeChanges (p : PersistedRecord)
    (env : PipelineEnv) (diff : String)
    (h : p.codeChanges = none ∨ p.codeChanges = some []) :
    getAnalysisRoute false (some p) env diff
      = .generated (generateAnalysis env diff).1 (generateAnalysis env diff).2 := by
  have hv : hasValidCodeChanges p = false := by
    unfold hasValidCodeChanges
    rcases h with h | h <;> simp [h]
  unfold getAnalysisRoute
  simp [hv]

/-- Witness for C10: a persisted record with an empty `codeChanges`
array does not short-circuit generation. -/
theorem claim10_witness :
    getAnalysisRoute false (some ⟨some [], some ⟨"graph TD\n  A", "x"⟩, none⟩)
        ⟨true, none, [], emptyCompletion, fun _ => none⟩ "+x"
      = .generated
          (generateAnalysis ⟨true, none, [], emptyCompletion, fun _ => none⟩ "+x").1
          (generateAnalysis ⟨true, none, [], emptyCompletion, fun _ => none⟩ "+x").2 :=
  claim10_persisted_requires_nonempty_codeChanges _ _ _ (Or.inr rfl)

/-! ## Claim C8: the snippet repair of the part_003 validator -/

/-- C8, counterexample.  The claim says the repair start is the parsed
lower bound of the declared range, defaulting to `1` (when unparsable).
For the range `0-5` the parsed lower bound is `0`, so the claim predicts
the repaired range `0-0` and the prefix `0: `; but the source computes
`parseInt(startStr) || 1`, and JavaScript `||` treats the number `0` as
falsy, so the snippet is renumbered from `1`: the result is `1-1` and
`1: x`. -/
theorem claim8_counterexample :
    jsParseInt "0" = some 0 ∧
      V3.cleanCodeChange
        ⟨some "Refactor", some "f.ts", some "0-5", some "s", some ["7: x"], some "e"⟩
        = ⟨"Refactor", "f.ts", "1-1", "e", some ["1: x"]⟩ ∧
      ("1-1" : String) ≠ "0-0" :=
  ⟨by decide, by decide, by decide⟩

/-- C8, amended: for a change of significant type carrying a snippet
array, if `validateLineNumbers` accepts the snippet against the declared
range, the cleaned change keeps the snippet and the range unchanged
(repair is idempotent there); if it rejects, the snippet is renumbered
so entry `N` carries the prefix `start + N` and the range is rewritten
to `start-(start + length - 1)`, where `start` is
`parseInt(lower bound) || 1` — the parsed lower bound except when it is
missing, unparsable, or zero, in which case `1` is used. -/
theorem claim8_amended_snippet_repair (change : RawCodeChange) (t : String)
    (snip : List String) (htype : change.type = some t)
    (hsig : V3.significantTypes.contains t = true)
    (hsnip : change.codeSnippet = some snip) :
    (V3.validateLineNumbers snip (change.lines.getD "") = true →
      (V3.cleanCodeChange change).codeSnippet = some snip ∧
        change.lines = some (V3.cleanCodeChange change).lines)
    ∧ (V3.validateLineNumbers snip (change.lines.getD "") = false →
      (V3.cleanCodeChange change).lines
          = toString (V3.repairStart (change.lines.getD "")) ++ "-"
            ++ toString (V3.repairStart (change.lines.getD "")
              + (snip.length : Int) - 1)
        ∧ (V3.cleanCodeChange change).codeSnippet
          = some (V3.renumberSnippet snip (V3.repairStart (change.lines.getD "")))) := by
  have hmem : t = "New Feature" ∨ t = "Refactor" ∨ t = "Improvement" := by
    have ht : t ∈ V3.significantTypes := by
      have := List.elem_iff.mp hsig
      simpa using this
    simpa [V3.significantTypes] using ht
  have htv : V3.validateChangeType t = true := by
    rcases hmem with h | h | h <;> subst h <;> decide
  constructor
  · intro hval
    obtain ⟨l, hl, hlne⟩ : ∃ l, change.lines = some l ∧ l ≠ "" := by
      cases hl : change.lines with
      | none =>
        rw [hl] at hval
        simp [V3.validateLineNumbers] at hval
      | some l =>
        refine ⟨l, rfl, fun h0 => ?_⟩
        rw [hl, h0] at hval
        simp [V3.validateLineNumbers] at hval
    rw [hl] at hval ⊢
    simp only [Option.getD_some] at hval
    unfold V3.cleanCodeChange
    simp only [htype, hsnip, htv, if_true, hsig, hl]
    simp [hval, jsOrStr, hlne]
  · intro hval
    unfold V3.cleanCodeChange
    simp only [htype, hsnip, htv, if_true, hsig]
    simp [hval]

/-- Witness for the amended C8: a correctly numbered snippet passes the
check and is returned unchanged, range included. -/
theorem claim8_witness :
    (V3.cleanCodeChange ⟨some "Refactor", some "f.ts", some "5-6", some "s",
        some ["5: a", "6: b"], some "e"⟩).codeSnippet = some ["5: a", "6: b"] ∧
      (some "5-6" : Option String)
        = some (V3.cleanCodeChange ⟨some "Refactor", some "f.ts", some "5-6",
            some "s", some ["5: a", "6: b"], some "e"⟩).lines :=
  (claim8_amended_snippet_repair _ "Refactor" _ rfl (by decide) rfl).1 (by decide)
